import Mathlib

/-!
Shallow embedding of `src/examples/z_queryable_with_channels.c` and
`src/helpers.cmake` from the zenoh-c repository, together with theorems
settling the specification claims about them.

The C example is glue around the zenoh middleware API.  We embed the
example's own control flow faithfully; middleware calls whose bodies are
not in this repository's sources are modelled as pure functions on the
data they visibly carry, with doc comments marking the ones modelled from
the specification text.
-/

namespace ZQueryableWithChannels

/-- Byte sequences (`z_loaned_bytes_t` contents) as lists of byte values. -/
abbrev Bytes := List Nat

/-- The data carried by a delivered query (`z_loaned_query_t`): its
key-expression, parameter string, and optional payload.  `payload = none`
models a query sent with no value attached; `payload = some b` models a
query carrying payload bytes `b` (possibly zero-length). -/
structure LoanedQuery where
  keyexpr : String
  parameters : String
  payload : Option Bytes
deriving Repr, DecidableEq

/-- An owned query slot (`z_owned_query_t`).  `none` is the gravestone
value for which `z_check` is false — the end-of-stream marker written by
the channel's `recv` when the channel is dropped; `some q` is a valid
owned query holding the data `q`. -/
abbrev OwnedQuery := Option LoanedQuery

/-- `z_check` on an owned query: true exactly on valid (non-gravestone)
values. -/
def z_check (q : OwnedQuery) : Bool := q.isSome

/-- `z_query_clone`: clone a borrowed query into a valid owned query
holding the same data. -/
def z_query_clone (q : LoanedQuery) : OwnedQuery := some q

/-- The global default key-expression of the example
(`const char *keyexpr`), overridden by `argv[1]` when present. -/
def keyexpr : String := "demo/example/zenoh-c-queryable"

/-- The global reply payload string of the example (`const char *value`). -/
def value : String := "Queryable from C!"

/-- `z_bytes_len`: the length of a bytes view. -/
def z_bytes_len (b : Bytes) : Nat := b.length

/-- `z_bytes_encode_from_string`: encode a string as payload bytes. -/
def z_bytes_encode_from_string (s : String) : Bytes :=
  s.toList.map Char.toNat

/-- `z_bytes_decode_into_string`: decode payload bytes back to a string. -/
def z_bytes_decode_into_string (b : Bytes) : String :=
  String.mk (b.map Char.ofNat)

/-- `z_keyexpr_to_string` on the key-expression of a query: the example
only converts the key-expression to its string form. -/
def z_keyexpr_to_string (k : String) : String := k

/-- The composite `z_value_payload (z_query_value query)` used by the
consumption loop.  The C accessor returns a plain `z_loaned_bytes_t`
view with no absent case: a query delivered without a value exposes a
zero-length bytes view, so an absent payload and a present zero-length
payload both extract to the empty byte sequence. -/
def z_value_payload (q : LoanedQuery) : Bytes := q.payload.getD []

/-- Observable actions of the example's main function, in program order:
the two `printf` shapes of the loop body, the `z_query_reply` call with
its target key-expression and payload, dropping the owned query, and the
three teardown calls. -/
inductive Event where
  | printWithValue (key params payloadStr : String)
  | printNoValue (key params : String)
  | reply (targetKeyexpr : String) (payload : Bytes)
  | dropQuery
  | undeclareQueryable
  | dropChannel
  | closeSession
deriving Repr, DecidableEq

/-- One iteration of the consumption loop body (lines 73–103 of the C
file), for a popped valid query `q`, with `ke` the key-expression the
queryable was declared on (the global view `ke`).  It extracts the key
string and parameters, branches on `z_bytes_len payload > 0` to choose
the print shape, then always replies with the encoded global `value`
addressed by `ke` and drops the owned query. -/
def bodyEvents (ke : String) (q : LoanedQuery) : List Event :=
  let key_string := z_keyexpr_to_string q.keyexpr
  let params := q.parameters
  let payload := z_value_payload q
  (if z_bytes_len payload > 0 then
    [Event.printWithValue key_string params (z_bytes_decode_into_string payload)]
  else
    [Event.printNoValue key_string params])
  ++ [Event.reply ke (z_bytes_encode_from_string value), Event.dropQuery]

/-- The consumption loop: repeatedly pop from the channel (`recv`); the
popped owned queries arrive as the list `stream`.  The loop processes
items while `z_check` holds and exits at the first gravestone value (or
when the stream is exhausted). -/
def loopEvents (ke : String) : List OwnedQuery → List Event
  | [] => []
  | none :: _ => []
  | some q :: rest => bodyEvents ke q ++ loopEvents ke rest

/-- The loop followed by the teardown of lines 106–108: undeclare the
queryable, drop the channel, close the session — in that order. -/
def runEvents (ke : String) (stream : List OwnedQuery) : List Event :=
  loopEvents ke stream ++
    [Event.undeclareQueryable, Event.dropChannel, Event.closeSession]

/-- Outcomes of the fallible setup steps of `main`: whether a connect
endpoint was passed (`argc > 2`), and whether each middleware call
returned non-negative. -/
structure SetupOutcomes where
  argcGt2 : Bool
  configInsertOk : Bool
  openOk : Bool
  keyexprOk : Bool
  declareOk : Bool
deriving Repr, DecidableEq

/-- The example's `main`, embedded over the setup outcomes and the stream
of popped queries: each failed setup step exits immediately with code
`-1` (producing no loop or teardown events); otherwise the loop runs,
teardown follows, and `main` returns `0`. -/
def mainRun (o : SetupOutcomes) (ke : String) (stream : List OwnedQuery) :
    Int × List Event :=
  if o.argcGt2 && !o.configInsertOk then (-1, [])
  else if !o.openOk then (-1, [])
  else if !o.keyexprOk then (-1, [])
  else if !o.declareOk then (-1, [])
  else (0, runEvents ke stream)

/-- Modelled from the spec: the bounded FIFO query channel created by
`zc_query_fifo_new`, whose implementation is middleware code not under
`src/`.  Per the spec it is a fixed-capacity bounded queue with `push`
(producer side) and `pop` (consumer side) preserving FIFO order; the
buffer lists queued entries oldest first. -/
structure QueryChannel where
  capacity : Nat
  buffer : List OwnedQuery
deriving Repr, DecidableEq

/-- Modelled from the spec: `zc_query_fifo_new` creates an empty channel
of the given fixed capacity. -/
def zc_query_fifo_new (cap : Nat) : QueryChannel := ⟨cap, []⟩

/-- Modelled from the spec: the producer-side `push` (the channel's
`send` closure).  Appends the entry when the queue is below capacity;
pushing at capacity does not succeed (the spec leaves block-vs-drop
open, so a full queue yields `none`). -/
def fifo_push (c : QueryChannel) (q : OwnedQuery) : Option QueryChannel :=
  if c.buffer.length < c.capacity then some ⟨c.capacity, c.buffer ++ [q]⟩
  else none

/-- Modelled from the spec: the consumer-side `pop` (the channel's `recv`
closure) takes the oldest queued entry. -/
def fifo_pop (c : QueryChannel) : Option (OwnedQuery × QueryChannel) :=
  match c.buffer with
  | [] => none
  | x :: xs => some (x, ⟨c.capacity, xs⟩)

/-- Push a list of entries in order, failing if any push fails. -/
def pushAll : QueryChannel → List OwnedQuery → Option QueryChannel
  | c, [] => some c
  | c, q :: qs =>
    match fifo_push c q with
    | none => none
    | some c2 => pushAll c2 qs

/-- The dequeue sequence obtained by popping up to `fuel` times. -/
def popSeq : Nat → QueryChannel → List OwnedQuery
  | 0, _ => []
  | fuel + 1, c =>
    match fifo_pop c with
    | none => []
    | some (q, c2) => q :: popSeq fuel c2

/-- The query handler callback (`query_handler`): clones the borrowed
query into an owned query and calls the channel's `send` closure on the
owned clone, enqueueing it. -/
def query_handler (query : LoanedQuery) (channel : QueryChannel) :
    Option QueryChannel :=
  fifo_push channel (z_query_clone query)

/-- The capacity `main` passes to `zc_query_fifo_new` at line 60. -/
def mainChannel : QueryChannel := zc_query_fifo_new 16

end ZQueryableWithChannels

namespace HelpersCmake

/-- The CMake variables `check_project_usage` reads. -/
structure CMakeVars where
  sourceDir : String
  currentSourceDir : String
  currentBinaryDir : String
deriving Repr, DecidableEq

/-- The two output variables `check_project_usage` sets in the parent
scope. -/
structure ProjectUsage where
  is_root : Bool
  is_ide : Bool
deriving Repr, DecidableEq

/-- `check_project_usage` from `src/helpers.cmake`: both outputs are
first set to FALSE; if `CMAKE_SOURCE_DIR` STREQUAL
`CMAKE_CURRENT_SOURCE_DIR` then `is_root` is set TRUE, and if
additionally `CMAKE_CURRENT_BINARY_DIR` STREQUAL
`"${CMAKE_CURRENT_SOURCE_DIR}/build"` then `is_ide` is set TRUE. -/
def check_project_usage (v : CMakeVars) : ProjectUsage :=
  let r0 : ProjectUsage := ⟨false, false⟩
  if v.sourceDir = v.currentSourceDir then
    let r1 : ProjectUsage := { r0 with is_root := true }
    if v.currentBinaryDir = v.currentSourceDir ++ "/build" then
      { r1 with is_ide := true }
    else r1
  else r0

end HelpersCmake

namespace ZQueryableWithChannels

/-- The key-expression a `reply` event is addressed to, `none` for other
events. -/
def replyTargetOf : Event → Option String
  | Event.reply t _ => some t
  | _ => none

/-- The payload a `reply` event carries, `none` for other events. -/
def replyPayloadOf : Event → Option Bytes
  | Event.reply _ p => some p
  | _ => none

/-- Boolean recogniser of `reply` events. -/
def isReplyEvent : Event → Bool
  | Event.reply _ _ => true
  | _ => false

/-- Boolean recogniser of `dropQuery` events. -/
def isDropQueryEvent : Event → Bool
  | Event.dropQuery => true
  | _ => false

lemma loopEvents_valid_prefix (ke : String) (qs : List LoanedQuery)
    (rest : List OwnedQuery) :
    loopEvents ke (qs.map some ++ none :: rest) =
      (qs.map (bodyEvents ke)).flatten := by
  induction qs with
  | nil => simp [loopEvents]
  | cons q qs ih => simp [loopEvents, ih]

lemma countP_bodyEvents_reply (ke : String) (q : LoanedQuery) :
    (bodyEvents ke q).countP isReplyEvent = 1 := by
  by_cases h : z_bytes_len (z_value_payload q) > 0 <;>
    simp [bodyEvents, h, List.countP_cons, isReplyEvent]

lemma fifo_push_some (c : QueryChannel) (q : OwnedQuery) (c2 : QueryChannel)
    (h : fifo_push c q = some c2) :
    c2.buffer = c.buffer ++ [q] ∧ c2.capacity = c.capacity := by
  unfold fifo_push at h
  by_cases hl : c.buffer.length < c.capacity
  · simp only [hl, if_pos] at h
    cases h
    exact ⟨rfl, rfl⟩
  · simp [hl] at h

lemma popSeq_eq_take (fuel : Nat) (c : QueryChannel) :
    popSeq fuel c = c.buffer.take fuel := by
  induction fuel generalizing c with
  | zero => simp [popSeq]
  | succ n ih =>
    unfold popSeq fifo_pop
    cases h : c.buffer with
    | nil => simp
    | cons x xs => simp [ih]

end ZQueryableWithChannels

namespace ZQueryableWithChannels

/-- C1 counterexample: at a concrete query key and parameter string, the
consumption loop's observable behavior on a query with absent payload is
identical to its behavior on a query with a present zero-length payload —
the loop conflates the two cases, refuting the claim that it treats them
as distinct. -/
theorem absent_vs_empty_payload_conflated :
    bodyEvents "demo/example/zenoh-c-queryable"
        ⟨"demo/example/zenoh-c-queryable", "", none⟩ =
      bodyEvents "demo/example/zenoh-c-queryable"
        ⟨"demo/example/zenoh-c-queryable", "", some []⟩ := by
  decide

/-- C1 (amended): the loop branches solely on whether the extracted
payload byte length is positive; a query with absent payload and a query
with a present zero-length payload are treated identically (both take the
no-value branch), while a query with non-empty payload takes the
with-value branch. -/
theorem payload_branch_on_length :
    ∀ (ke key params : String),
      bodyEvents ke ⟨key, params, none⟩ = bodyEvents ke ⟨key, params, some []⟩ ∧
      bodyEvents ke ⟨key, params, none⟩ =
        Event.printNoValue key params ::
          [Event.reply ke (z_bytes_encode_from_string value), Event.dropQuery] ∧
      ∀ (b : Nat) (bs : Bytes),
        bodyEvents ke ⟨key, params, some (b :: bs)⟩ =
          Event.printWithValue key params
              (z_bytes_decode_into_string (b :: bs)) ::
            [Event.reply ke (z_bytes_encode_from_string value),
             Event.dropQuery] := by
  intro ke key params
  refine ⟨rfl, rfl, fun b bs => ?_⟩
  simp [bodyEvents, z_value_payload, z_bytes_len, z_keyexpr_to_string]

/-- C2 counterexample: with the queryable declared on the example's
global key-expression, processing a popped query whose own key-expression
is the different string "demo/example/**" emits exactly one reply, and
that reply is addressed to the declared key-expression — not to the
query's own key-expression, refuting the claim. -/
theorem reply_not_addressed_by_query_keyexpr :
    ((bodyEvents keyexpr ⟨"demo/example/**", "", none⟩).filterMap
        replyTargetOf = [keyexpr]) ∧
      keyexpr ≠ "demo/example/**" := by
  constructor
  · decide
  · decide

/-- C2 (amended): for every query processed by the loop, the reply
operation is invoked addressed by the key-expression the queryable was
declared on (the example's global `ke`), which is not in general the
query's own key-expression, and the query value is released immediately
afterwards: the loop body always ends with the reply event followed by
the drop of the owned query. -/
theorem reply_addressed_by_declared_keyexpr_then_drop :
    ∀ (ke : String) (q : LoanedQuery),
      ∃ pre, bodyEvents ke q =
        pre ++ [Event.reply ke (z_bytes_encode_from_string value),
                Event.dropQuery] := by
  intro ke q
  exact ⟨_, rfl⟩

/-- C3: the embedded `main` exits with code `-1` exactly when some setup
step fails — a provided connect endpoint is rejected by the configuration
insert, the session open fails, the key-expression is invalid, or the
queryable registration fails — and returns `0` on normal shutdown after
the loop; no other exit code occurs. -/
theorem main_exit_codes :
    ∀ (o : SetupOutcomes) (ke : String) (stream : List OwnedQuery),
      ((mainRun o ke stream).1 = 0 ↔
        (o.argcGt2 = true → o.configInsertOk = true) ∧ o.openOk = true ∧
          o.keyexprOk = true ∧ o.declareOk = true) ∧
      ((mainRun o ke stream).1 = 0 ∨ (mainRun o ke stream).1 = -1) := by
  intro o ke stream
  rcases o with ⟨a, b, c, d, e⟩
  cases a <;> cases b <;> cases c <;> cases d <;> cases e <;>
    simp [mainRun]

/-- C4: each loop iteration issues exactly one reply for the popped query
and drops the owned query exactly once, and over a whole run whose stream
delivers the valid queries `qs` followed by the end marker, the number of
reply events equals the number of queries received. -/
theorem exactly_one_reply_per_query :
    ∀ (ke : String) (q : LoanedQuery) (qs : List LoanedQuery)
      (rest : List OwnedQuery),
      (bodyEvents ke q).countP isReplyEvent = 1 ∧
      (bodyEvents ke q).countP isDropQueryEvent = 1 ∧
      (runEvents ke (qs.map some ++ none :: rest)).countP isReplyEvent =
        qs.length := by
  intro ke q qs rest
  refine ⟨countP_bodyEvents_reply ke q, ?_, ?_⟩
  · by_cases h : z_bytes_len (z_value_payload q) > 0 <;>
      simp [bodyEvents, h, List.countP_cons, isDropQueryEvent]
  · rw [runEvents, loopEvents_valid_prefix, List.countP_append]
    have hjoin : ∀ l : List LoanedQuery,
        ((l.map (bodyEvents ke)).flatten).countP isReplyEvent = l.length := by
      intro l
      induction l with
      | nil => simp
      | cons x xs ih =>
        simp [List.countP_append, ih, countP_bodyEvents_reply,
          Nat.add_comm]
    simp [hjoin, List.countP_cons, isReplyEvent]

/-- C5: when the channel's `recv` yields the end-of-stream marker (an
owned query failing `z_check`), the loop exits without touching the rest
of the stream, and teardown then runs in order: undeclare the queryable,
drop the channel, close the session. -/
theorem loop_exit_and_teardown_order :
    ∀ (ke : String) (qs : List LoanedQuery) (rest : List OwnedQuery),
      runEvents ke (qs.map some ++ none :: rest) =
        (qs.map (bodyEvents ke)).flatten ++
          [Event.undeclareQueryable, Event.dropChannel,
           Event.closeSession] := by
  intro ke qs rest
  rw [runEvents, loopEvents_valid_prefix]

/-- C6: whenever the query handler callback succeeds in enqueueing, the
entry appended to the channel's queue is exactly the owned clone
(`z_query_clone`) of the delivered borrowed query, and that clone is a
valid owned value. -/
theorem handler_enqueues_owned_clone :
    ∀ (query : LoanedQuery) (channel : QueryChannel) (c2 : QueryChannel),
      query_handler query channel = some c2 →
        c2.buffer = channel.buffer ++ [z_query_clone query] ∧
          z_check (z_query_clone query) = true := by
  intro query channel c2 h
  unfold query_handler fifo_push at h
  by_cases hlt : channel.buffer.length < channel.capacity
  · simp only [hlt, if_pos] at h
    cases h
    exact ⟨rfl, rfl⟩
  · simp [hlt] at h

/-- C6 witness: the handler applied to a concrete query and the example's
freshly created channel enqueues the owned clone of that query. -/
theorem handler_enqueues_owned_clone_witness :
    query_handler ⟨"demo/example/test", "", none⟩ mainChannel =
        some ⟨16, [some ⟨"demo/example/test", "", none⟩]⟩ ∧
      (⟨16, [some ⟨"demo/example/test", "", none⟩]⟩ : QueryChannel).buffer =
          mainChannel.buffer ++
            [z_query_clone ⟨"demo/example/test", "", none⟩] ∧
        z_check (z_query_clone ⟨"demo/example/test", "", none⟩) = true :=
  ⟨by decide,
   handler_enqueues_owned_clone ⟨"demo/example/test", "", none⟩ mainChannel
     ⟨16, [some ⟨"demo/example/test", "", none⟩]⟩ (by decide)⟩

/-- C7: the bounded query channel `main` creates at line 60 of the C file
is built by `zc_query_fifo_new` with a fixed capacity of exactly 16. -/
theorem main_channel_capacity_sixteen :
    mainChannel = zc_query_fifo_new 16 ∧ mainChannel.capacity = 16 :=
  ⟨rfl, rfl⟩

/-- C8: for every query the loop replies to, the single reply payload
emitted is the encoding of the constant string "Queryable from C!",
independent of the query's key, parameters, or payload; the encoding
round-trips to that same string. -/
theorem constant_reply_payload :
    ∀ (ke : String) (q : LoanedQuery),
      (bodyEvents ke q).filterMap replyPayloadOf =
        [z_bytes_encode_from_string "Queryable from C!"] ∧
      value = "Queryable from C!" ∧
      z_bytes_decode_into_string (z_bytes_encode_from_string value) =
        "Queryable from C!" := by
  intro ke q
  refine ⟨?_, rfl, by decide⟩
  by_cases h : z_bytes_len (z_value_payload q) > 0 <;>
    simp [bodyEvents, h, replyPayloadOf, value]

/-- C9: the modelled FIFO channel preserves enqueue order: for any two
items pushed in order `o1` then `o2` from any reachable state, fully
draining the queue dequeues the prior contents first, then `o1`, then
`o2` — in particular `o1` is dequeued before `o2`. -/
theorem fifo_preserves_order :
    ∀ (c : QueryChannel) (o1 o2 : OwnedQuery) (c1 c2 : QueryChannel),
      fifo_push c o1 = some c1 → fifo_push c1 o2 = some c2 →
        popSeq c2.buffer.length c2 = c.buffer ++ [o1, o2] := by
  intro c o1 o2 c1 c2 h1 h2
  rw [popSeq_eq_take, List.take_length]
  rw [(fifo_push_some c1 o2 c2 h2).1, (fifo_push_some c o1 c1 h1).1]
  simp

/-- C9 witness: pushing two concrete distinct items into the example's
fresh capacity-16 channel and draining it dequeues them in push order. -/
theorem fifo_preserves_order_witness :
    fifo_push mainChannel (some ⟨"a", "", none⟩) =
        some ⟨16, [some ⟨"a", "", none⟩]⟩ ∧
      fifo_push ⟨16, [some ⟨"a", "", none⟩]⟩ (some ⟨"b", "", none⟩) =
        some ⟨16, [some ⟨"a", "", none⟩, some ⟨"b", "", none⟩]⟩ ∧
      popSeq (QueryChannel.buffer
          ⟨16, [some ⟨"a", "", none⟩, some ⟨"b", "", none⟩]⟩).length
        ⟨16, [some ⟨"a", "", none⟩, some ⟨"b", "", none⟩]⟩ =
        mainChannel.buffer ++ [some ⟨"a", "", none⟩, some ⟨"b", "", none⟩] :=
  ⟨by decide, by decide,
   fifo_preserves_order mainChannel (some ⟨"a", "", none⟩)
     (some ⟨"b", "", none⟩) ⟨16, [some ⟨"a", "", none⟩]⟩
     ⟨16, [some ⟨"a", "", none⟩, some ⟨"b", "", none⟩]⟩
     (by decide) (by decide)⟩

end ZQueryableWithChannels

namespace HelpersCmake

/-- C10: `check_project_usage` always determines both outputs: `is_root`
is TRUE exactly when `CMAKE_SOURCE_DIR` equals
`CMAKE_CURRENT_SOURCE_DIR`, `is_ide` is TRUE exactly when additionally
`CMAKE_CURRENT_BINARY_DIR` equals `"${CMAKE_CURRENT_SOURCE_DIR}/build"`;
hence `is_ide` TRUE implies `is_root` TRUE, and when the project is not
root both outputs are FALSE. -/
theorem check_project_usage_outputs :
    ∀ (v : CMakeVars),
      (check_project_usage v).is_root =
          decide (v.sourceDir = v.currentSourceDir) ∧
      (check_project_usage v).is_ide =
          (decide (v.sourceDir = v.currentSourceDir) &&
            decide (v.currentBinaryDir = v.currentSourceDir ++ "/build")) ∧
      ((check_project_usage v).is_ide = true →
        (check_project_usage v).is_root = true) ∧
      ((check_project_usage v).is_root = false →
        check_project_usage v = ⟨false, false⟩) := by
  intro v
  by_cases h1 : v.sourceDir = v.currentSourceDir <;>
    by_cases h2 : v.currentBinaryDir = v.currentSourceDir ++ "/build" <;>
      simp [check_project_usage, h1, h2]

end HelpersCmake
